import Mathlib

/-!
Shallow embedding of the execution/configuration core of the lvm2go
repository: the context-scoped execution configuration and command builder
of command.go, the no-nsenter client decorator, and the option/argument
composition used by vgreduce and the common options.
-/

namespace Lvm2go

/-!
## Context model

command.go stores its per-call configuration in a Go context via
`context.WithValue`.  Its four keys (`waitDelayKey`, `defaultVolumeGroupKey`,
`envContextKey`, `forceNoNsenterKey`) are all declared as the *empty struct
value*.  In Go, two interface values holding the empty struct compare equal,
so all four keys are one and the same key: a lookup with any of the four key
variables returns the value of the *newest* entry written with *any* of
them, and the caller's subsequent type assertion (to Duration, string, map,
or bool) decides whether that value is used or the default is returned.

We model a context as a list of stored values, newest first.  A getter
therefore inspects the head of the list (the newest entry under the shared
key) and type-tests it, exactly as the Go type assertions do.
-/

/-- A value stored in the context under the (shared) configuration key.
The four constructors correspond to the four dynamic types the code
stores: `time.Duration` (wait delay), `string` (default volume group),
`map of string to string` (custom environment, modelled as an association
list in some iteration order), and `bool` (force-no-nsenter). -/
inductive CtxVal where
  | duration (d : Int)
  | vgName (s : String)
  | envMap (m : List (String × String))
  | force (b : Bool)
deriving DecidableEq, Repr

/-- A context chain built from the four setters of command.go over a
background context; newest entry first. -/
def Ctx := List CtxVal

instance : DecidableEq Ctx := inferInstanceAs (DecidableEq (List CtxVal))

/-- The background (empty) context. -/
def Ctx.background : Ctx := []

/-- The `DefaultWaitDelay` for commands (zero). -/
def DefaultWaitDelay : Int := 0

/-- The `SetProcessCancelWaitDelay` wraps the context with a wait-delay entry. -/
def SetProcessCancelWaitDelay (ctx : Ctx) (delay : Int) : Ctx :=
  CtxVal.duration delay :: ctx

/-- The `GetProcessCancelWaitDelay`: looks up the shared key (the newest entry)
and type-asserts to a duration; otherwise returns `DefaultWaitDelay`. -/
def GetProcessCancelWaitDelay (ctx : Ctx) : Int :=
  match ctx with
  | CtxVal.duration d :: _ => d
  | _ => DefaultWaitDelay

/-- The `WithDefaultVolumeGroup` wraps the context with a default-vg entry. -/
def WithDefaultVolumeGroup (ctx : Ctx) (vg : String) : Ctx :=
  CtxVal.vgName vg :: ctx

/-- The `DefaultVolumeGroup`: newest entry type-asserted to string, else empty. -/
def DefaultVolumeGroup (ctx : Ctx) : String :=
  match ctx with
  | CtxVal.vgName s :: _ => s
  | _ => ""

/-- The `WithCustomEnvironment` wraps the context with a custom-env entry. -/
def WithCustomEnvironment (ctx : Ctx) (env : List (String × String)) : Ctx :=
  CtxVal.envMap env :: ctx

/-- The `GetCustomEnvironment`: newest entry type-asserted to a map, else `nil`
(modelled as `none`). -/
def GetCustomEnvironment (ctx : Ctx) : Option (List (String × String)) :=
  match ctx with
  | CtxVal.envMap m :: _ => some m
  | _ => none

/-- The `WithForceNoNsenter` wraps the context with a force-no-nsenter entry. -/
def WithForceNoNsenter (ctx : Ctx) (force : Bool) : Ctx :=
  CtxVal.force force :: ctx

/-- The `shouldForceNoNsenter`: newest entry type-asserted to bool, else false. -/
def shouldForceNoNsenter (ctx : Ctx) : Bool :=
  match ctx with
  | CtxVal.force b :: _ => b
  | _ => false

/-!
## Process-wide state and the command builder
-/

/-- The process-wide memoized state read by the command builder: the
containerization flag computed once by `IsContainerized` and the
locale-normalization flag read by `UseStandardLocale`. -/
structure SysState where
  isContainerized : Bool
  useStandardLocale : Bool
deriving DecidableEq, Repr

/-- The `IsContainerized` returns the process-wide memoized flag; the context
argument is used only for logging. -/
def IsContainerized (sys : SysState) : Bool := sys.isContainerized

/-- The `UseStandardLocale` returns the process-wide locale flag. -/
def UseStandardLocale (sys : SysState) : Bool := sys.useStandardLocale

/-- Path of the namespace-entry helper. -/
def nsenter : String := "/usr/bin/nsenter"

/-- Name of the default-volume-group environment variable. -/
def DefaultVolumeGroupEnv : String := "LVM_VG_NAME"

/-- The command descriptor built by `CommandContext`: executable path,
argument vector, wait delay, and the explicitly assigned environment
entries (the `Env` field of the descriptor, which starts out empty). -/
structure Cmd where
  path : String
  args : List String
  waitDelay : Int
  env : List String
deriving DecidableEq, Repr

/-- The `WillUseNsenter` returns whether nsenter will be used for the given
context: containerized and force-no-nsenter not set. -/
def WillUseNsenter (sys : SysState) (ctx : Ctx) : Bool :=
  IsContainerized sys && !shouldForceNoNsenter ctx

/-- The `CommandWithCustomEnvironment`: appends the fixed locale entry when the
process-wide flag is enabled, then appends every custom-environment pair
from the context (in the map's iteration order). -/
def CommandWithCustomEnvironment (sys : SysState) (ctx : Ctx) (c : Cmd) : Cmd :=
  let c := if UseStandardLocale sys then { c with env := c.env ++ ["LC_ALL=C"] } else c
  match GetCustomEnvironment ctx with
  | some m => { c with env := c.env ++ m.map (fun kv => kv.1 ++ "=" ++ kv.2) }
  | none => c

/-- The `CommandContext` builds the command descriptor: nsenter-prefixed when
containerized and not bypassed, then wait delay, then the default-vg
environment entry when set, then locale and custom environment. -/
def CommandContext (sys : SysState) (ctx : Ctx) (cmd : String) (args : List String) : Cmd :=
  let c : Cmd :=
    if IsContainerized sys && !shouldForceNoNsenter ctx then
      { path := nsenter,
        args := ["-m", "-u", "-i", "-n", "-p", "-t", "1", cmd] ++ args,
        waitDelay := 0, env := [] }
    else
      { path := cmd, args := args, waitDelay := 0, env := [] }
  let c := { c with waitDelay := GetProcessCancelWaitDelay ctx }
  let c :=
    if DefaultVolumeGroup ctx ≠ "" then
      { c with env := c.env ++ [DefaultVolumeGroupEnv ++ "=" ++ DefaultVolumeGroup ctx] }
    else c
  CommandWithCustomEnvironment sys ctx c

/-- The environment the spawned subprocess actually receives.  Models the
standard library's process-execution semantics: when the descriptor's
environment list is empty (Go `nil`), the subprocess inherits the parent
process's environment; otherwise it receives exactly the listed entries. -/
def effectiveEnv (parent : List String) (c : Cmd) : List String :=
  if c.env = [] then parent else c.env

/-!
## Argument model and option composition

The `Arguments` implementation itself is not part of this slice of the
repository; it is modelled from the spec: an ordered sequence of string
tokens with "add" (append) and "add-or-replace" (remove prior occurrences
of a flag, then append).
-/

/-- Modelled from the spec: the ordered argument list (`Arguments` with
`ArgsTypeGeneric`); `GetRaw` is the identity on this model. -/
abbrev Arguments := List String

/-- The `NewArgs` creates an empty argument list. -/
def NewArgs : Arguments := []

/-- Modelled from the spec: `AddOrReplace` removes prior occurrences of the
flag, then appends it. -/
def Arguments.AddOrReplace (args : Arguments) (flag : String) : Arguments :=
  (List.filter (fun t => t ≠ flag) args) ++ [flag]

/-- The `RequestConfirm` option (bool). -/
abbrev RequestConfirm := Bool

/-- The `RequestConfirm.ApplyToArgs`: when the option is false it adds the
`--yes` flag; the Go method always returns a nil error, so it is embedded
as a total function on argument lists. -/
def RequestConfirm.ApplyToArgs (opt : RequestConfirm) (args : Arguments) : Arguments :=
  if !opt then args.AddOrReplace "--yes" else args

/-- The `Verbose` option (bool). -/
abbrev Verbose := Bool

/-- The `Verbose.ApplyToArgs`: when true it adds the `--verbose` flag. -/
def Verbose.ApplyToArgs (opt : Verbose) (args : Arguments) : Arguments :=
  if opt then args.AddOrReplace "--verbose" else args

/-- The `Devices` option (list of device paths). -/
abbrev Devices := List String

/-- Modelled from the spec: the `Devices` rendering (its `ApplyToArgs` is
not part of this slice); a non-empty device list renders a `--devices`
flag followed by the comma-joined device paths. -/
def Devices.ApplyToArgs (opt : Devices) (args : Arguments) : Arguments :=
  if opt = [] then args
  else (args.AddOrReplace "--devices") ++ [String.intercalate "," opt]

/-- The `DevicesFile` option (file name). -/
abbrev DevicesFile := String

/-- Modelled from the spec: the `DevicesFile` rendering (its `ApplyToArgs`
is not part of this slice); a non-empty file name renders a
`--devicesfile` flag followed by the name. -/
def DevicesFile.ApplyToArgs (opt : DevicesFile) (args : Arguments) : Arguments :=
  if opt = "" then args
  else (args.AddOrReplace "--devicesfile") ++ [opt]

/-- The `Profile` option (profile name). -/
abbrev Profile := String

/-- The `CommonOptions` with its five embedded option fields, in source order. -/
structure CommonOptions where
  devices : Devices
  devicesFile : DevicesFile
  profile : Profile
  verbose : Verbose
  requestConfirm : RequestConfirm
deriving DecidableEq, Repr

/-- The `CommonOptions.ApplyToArgs` applies, in order, the `Devices`,
`DevicesFile`, `Verbose` and `RequestConfirm` fields; the embedded
`Profile` field is not applied. -/
def CommonOptions.ApplyToArgs (opts : CommonOptions) (args : Arguments) : Arguments :=
  RequestConfirm.ApplyToArgs opts.requestConfirm
    (Verbose.ApplyToArgs opts.verbose
      (DevicesFile.ApplyToArgs opts.devicesFile
        (Devices.ApplyToArgs opts.devices args)))

/-!
## vgreduce option aggregation and rendering
-/

/-- The `VolumeGroupName` option. -/
abbrev VolumeGroupName := String

/-- Modelled from the spec: `VolumeGroupName` renders as the positional
volume-group name token (its `ApplyToArgs` is not part of this slice). -/
def VolumeGroupName.ApplyToArgs (opt : VolumeGroupName) (args : Arguments) : Arguments :=
  args ++ [opt]

/-- The `PhysicalVolumeNames` option. -/
abbrev PhysicalVolumeNames := List String

/-- Modelled from the spec: `PhysicalVolumeNames` renders as the positional
physical-volume name tokens (its `ApplyToArgs` is not part of this
slice). -/
def PhysicalVolumeNames.ApplyToArgs (opt : PhysicalVolumeNames) (args : Arguments) : Arguments :=
  args ++ opt

/-- The `RemoveMissing` option (bool). -/
abbrev RemoveMissing := Bool

/-- Modelled from the spec: `RemoveMissing` renders the `--removemissing`
flag when true (its `ApplyToArgs` is not part of this slice). -/
def RemoveMissing.ApplyToArgs (opt : RemoveMissing) (args : Arguments) : Arguments :=
  if opt then args.AddOrReplace "--removemissing" else args

/-- The `Force` option (bool). -/
abbrev Force := Bool

/-- Modelled from the spec: `Force` renders the `--force` flag when true
(its `ApplyToArgs` is not part of this slice). -/
def Force.ApplyToArgs (opt : Force) (args : Arguments) : Arguments :=
  if opt then args.AddOrReplace "--force" else args

/-- The `VGReduceOptions` struct with its five embedded fields, in source
order. -/
structure VGReduceOptions where
  volumeGroupName : VolumeGroupName
  physicalVolumeNames : PhysicalVolumeNames
  removeMissing : RemoveMissing
  force : Force
  commonOptions : CommonOptions
deriving DecidableEq, Repr

/-- The Go zero value of `VGReduceOptions` (empty strings and lists, false
booleans), the accumulator `AsArgs` starts from. -/
def VGReduceOptions.zero : VGReduceOptions :=
  { volumeGroupName := "", physicalVolumeNames := [], removeMissing := false,
    force := false, commonOptions := ⟨[], "", "", false, false⟩ }

/-- The closed set of `VGReduceOption` implementors: the five embedded field
types, plus `VGReduceOptions` itself (whose `ApplyToVGReduceOptions`
replaces the whole struct). -/
inductive VGReduceOption where
  | vgName (v : VolumeGroupName)
  | pvNames (v : PhysicalVolumeNames)
  | removeMissing (v : RemoveMissing)
  | force (v : Force)
  | common (v : CommonOptions)
  | full (v : VGReduceOptions)
deriving DecidableEq, Repr

/-- Modelled from the spec: the field implementors of
`ApplyToVGReduceOptions` (not part of this slice) each write into their own
field of the single options struct; the `VGReduceOptions` implementor
itself (from the source) overwrites the whole struct. -/
def VGReduceOption.ApplyToVGReduceOptions (opt : VGReduceOption) (o : VGReduceOptions) : VGReduceOptions :=
  match opt with
  | .vgName v => { o with volumeGroupName := v }
  | .pvNames v => { o with physicalVolumeNames := v }
  | .removeMissing v => { o with removeMissing := v }
  | .force v => { o with force := v }
  | .common v => { o with commonOptions := v }
  | .full v => v

/-- The `VGReduceOptions.ApplyToArgs`: validates the struct-level invariants and
only then renders the fields in the fixed order `RemoveMissing`,
`VolumeGroupName`, `PhysicalVolumeNames`, `Force`, `CommonOptions`. -/
def VGReduceOptions.ApplyToArgs (opts : VGReduceOptions) (args : Arguments) : Except String Arguments :=
  if opts.volumeGroupName = "" then
    .error "VolumeGroupName is required for extension of a volume group"
  else if opts.physicalVolumeNames = [] ∧ opts.removeMissing = false then
    .error "at least one PhysicalVolumeName is required for reduction of a volume group"
  else
    .ok (CommonOptions.ApplyToArgs opts.commonOptions
      (Force.ApplyToArgs opts.force
        (PhysicalVolumeNames.ApplyToArgs opts.physicalVolumeNames
          (VolumeGroupName.ApplyToArgs opts.volumeGroupName
            (RemoveMissing.ApplyToArgs opts.removeMissing args)))))

/-- Aggregation step of `AsArgs`: apply every option of the list, in order,
into a single options struct starting from the zero value. -/
def VGReduceAggregate (list : List VGReduceOption) : VGReduceOptions :=
  list.foldl (fun o opt => opt.ApplyToVGReduceOptions o) VGReduceOptions.zero

/-- The `VGReduceOptionsList.AsArgs`: aggregate, then validate and render into a
fresh argument list. -/
def VGReduceOptionsList.AsArgs (list : List VGReduceOption) : Except String Arguments :=
  (VGReduceAggregate list).ApplyToArgs NewArgs

/-!
## The Client contract and the no-nsenter decorator

The `Client` interface is modelled as a structure of method
implementations.  Every method takes the per-call context first; the
per-method Go option types, which the decorator forwards opaquely, are
collapsed into the parameter `Opt`, domain results into `V`, and errors
into `Err`.  A Go pair `(result, error)` is modelled as `Except Err
result`; an error-only return as `Except Err Unit`.  The method list is
that of the source decorator file. -/
structure Client (Opt Err V : Type) where
  version : Ctx → List Opt → Except Err V
  rawConfig : Ctx → List Opt → Except Err V
  readAndDecodeConfig : Ctx → V → List Opt → Except Err Unit
  writeAndEncodeConfig : Ctx → V → V → Except Err Unit
  updateGlobalConfig : Ctx → V → Except Err Unit
  updateLocalConfig : Ctx → V → Except Err Unit
  updateProfileConfig : Ctx → V → Profile → Except Err Unit
  createProfile : Ctx → V → Profile → Except Err String
  removeProfile : Ctx → Profile → Except Err Unit
  getProfilePath : Ctx → Profile → Except Err String
  getProfileDirectory : Ctx → Except Err String
  vg : Ctx → List Opt → Except Err V
  vgs : Ctx → List Opt → Except Err (List V)
  vgCreate : Ctx → List Opt → Except Err Unit
  vgRemove : Ctx → List Opt → Except Err Unit
  vgExtend : Ctx → List Opt → Except Err Unit
  vgReduce : Ctx → List Opt → Except Err Unit
  vgRename : Ctx → List Opt → Except Err Unit
  vgChange : Ctx → List Opt → Except Err Unit
  lv : Ctx → List Opt → Except Err V
  lvs : Ctx → List Opt → Except Err (List V)
  lvCreate : Ctx → List Opt → Except Err Unit
  lvRemove : Ctx → List Opt → Except Err Unit
  lvResize : Ctx → List Opt → Except Err Unit
  lvExtend : Ctx → List Opt → Except Err Unit
  lvReduce : Ctx → List Opt → Except Err Unit
  lvRename : Ctx → List Opt → Except Err Unit
  lvChange : Ctx → List Opt → Except Err Unit
  pvs : Ctx → List Opt → Except Err (List V)
  pvCreate : Ctx → List Opt → Except Err Unit
  pvRemove : Ctx → List Opt → Except Err Unit
  pvResize : Ctx → List Opt → Except Err Unit
  pvChange : Ctx → List Opt → Except Err Unit
  pvMove : Ctx → List Opt → Except Err Unit
  devList : Ctx → List Opt → Except Err (List V)
  devCheck : Ctx → List Opt → Except Err Unit
  devUpdate : Ctx → List Opt → Except Err Unit
  devModify : Ctx → List Opt → Except Err Unit

/-- The `applyNoNsenter` of the decorator: enrich the context with the
force-no-nsenter flag set to true. -/
def applyNoNsenter (ctx : Ctx) : Ctx := WithForceNoNsenter ctx true

/-- The `noNsenterClient` decorator (created by `WithNoNsenter`): every
method derives the enriched context via `applyNoNsenter` and delegates to
the wrapped client, forwarding arguments and results unchanged. -/
def WithNoNsenter {Opt Err V : Type} (c : Client Opt Err V) : Client Opt Err V where
  version := fun ctx opts => c.version (applyNoNsenter ctx) opts
  rawConfig := fun ctx opts => c.rawConfig (applyNoNsenter ctx) opts
  readAndDecodeConfig := fun ctx v opts => c.readAndDecodeConfig (applyNoNsenter ctx) v opts
  writeAndEncodeConfig := fun ctx v w => c.writeAndEncodeConfig (applyNoNsenter ctx) v w
  updateGlobalConfig := fun ctx v => c.updateGlobalConfig (applyNoNsenter ctx) v
  updateLocalConfig := fun ctx v => c.updateLocalConfig (applyNoNsenter ctx) v
  updateProfileConfig := fun ctx v p => c.updateProfileConfig (applyNoNsenter ctx) v p
  createProfile := fun ctx v p => c.createProfile (applyNoNsenter ctx) v p
  removeProfile := fun ctx p => c.removeProfile (applyNoNsenter ctx) p
  getProfilePath := fun ctx p => c.getProfilePath (applyNoNsenter ctx) p
  getProfileDirectory := fun ctx => c.getProfileDirectory (applyNoNsenter ctx)
  vg := fun ctx opts => c.vg (applyNoNsenter ctx) opts
  vgs := fun ctx opts => c.vgs (applyNoNsenter ctx) opts
  vgCreate := fun ctx opts => c.vgCreate (applyNoNsenter ctx) opts
  vgRemove := fun ctx opts => c.vgRemove (applyNoNsenter ctx) opts
  vgExtend := fun ctx opts => c.vgExtend (applyNoNsenter ctx) opts
  vgReduce := fun ctx opts => c.vgReduce (applyNoNsenter ctx) opts
  vgRename := fun ctx opts => c.vgRename (applyNoNsenter ctx) opts
  vgChange := fun ctx opts => c.vgChange (applyNoNsenter ctx) opts
  lv := fun ctx opts => c.lv (applyNoNsenter ctx) opts
  lvs := fun ctx opts => c.lvs (applyNoNsenter ctx) opts
  lvCreate := fun ctx opts => c.lvCreate (applyNoNsenter ctx) opts
  lvRemove := fun ctx opts => c.lvRemove (applyNoNsenter ctx) opts
  lvResize := fun ctx opts => c.lvResize (applyNoNsenter ctx) opts
  lvExtend := fun ctx opts => c.lvExtend (applyNoNsenter ctx) opts
  lvReduce := fun ctx opts => c.lvReduce (applyNoNsenter ctx) opts
  lvRename := fun ctx opts => c.lvRename (applyNoNsenter ctx) opts
  lvChange := fun ctx opts => c.lvChange (applyNoNsenter ctx) opts
  pvs := fun ctx opts => c.pvs (applyNoNsenter ctx) opts
  pvCreate := fun ctx opts => c.pvCreate (applyNoNsenter ctx) opts
  pvRemove := fun ctx opts => c.pvRemove (applyNoNsenter ctx) opts
  pvResize := fun ctx opts => c.pvResize (applyNoNsenter ctx) opts
  pvChange := fun ctx opts => c.pvChange (applyNoNsenter ctx) opts
  pvMove := fun ctx opts => c.pvMove (applyNoNsenter ctx) opts
  devList := fun ctx opts => c.devList (applyNoNsenter ctx) opts
  devCheck := fun ctx opts => c.devCheck (applyNoNsenter ctx) opts
  devUpdate := fun ctx opts => c.devUpdate (applyNoNsenter ctx) opts
  devModify := fun ctx opts => c.devModify (applyNoNsenter ctx) opts

/-!
## Derived helpers used in the statements
-/

/-- The locale entries appended by `CommandWithCustomEnvironment`. -/
def localeEnv (sys : SysState) : List String :=
  if UseStandardLocale sys then ["LC_ALL=C"] else []

/-- The default-volume-group entries appended by `CommandContext`. -/
def vgEnv (ctx : Ctx) : List String :=
  if DefaultVolumeGroup ctx ≠ "" then
    [DefaultVolumeGroupEnv ++ "=" ++ DefaultVolumeGroup ctx]
  else []

/-- The caller-supplied custom entries appended last by
`CommandWithCustomEnvironment`. -/
def customEnvList (ctx : Ctx) : List String :=
  match GetCustomEnvironment ctx with
  | some m => m.map (fun kv => kv.1 ++ "=" ++ kv.2)
  | none => []

/-- The value a subprocess resolves for a key from an environment entry
list: the last entry of the form key=value wins (the duplicate-key rule of
process execution). -/
def envValue (key : String) (env : List String) : Option String :=
  (env.reverse.find? (fun e => List.isPrefixOf (key ++ "=").data e.data)).map
    (fun e => String.mk (e.data.drop (key ++ "=").data.length))

/-- Whether two `VGReduceOption` values are of the same kind (produced by
the same implementor type). -/
def VGReduceOption.sameKind : VGReduceOption → VGReduceOption → Bool
  | .vgName _, .vgName _ => true
  | .pvNames _, .pvNames _ => true
  | .removeMissing _, .removeMissing _ => true
  | .force _, .force _ => true
  | .common _, .common _ => true
  | .full _, .full _ => true
  | _, _ => false

/-!
## Supporting lemmas
-/

lemma CommandWithCustomEnvironment_path (sys : SysState) (ctx : Ctx) (c : Cmd) :
    (CommandWithCustomEnvironment sys ctx c).path = c.path := by
  unfold CommandWithCustomEnvironment
  cases hE : GetCustomEnvironment ctx <;> by_cases hL : UseStandardLocale sys <;>
    simp [hE, hL]

lemma CommandWithCustomEnvironment_args (sys : SysState) (ctx : Ctx) (c : Cmd) :
    (CommandWithCustomEnvironment sys ctx c).args = c.args := by
  unfold CommandWithCustomEnvironment
  cases hE : GetCustomEnvironment ctx <;> by_cases hL : UseStandardLocale sys <;>
    simp [hE, hL]

lemma CommandWithCustomEnvironment_env (sys : SysState) (ctx : Ctx) (c : Cmd) :
    (CommandWithCustomEnvironment sys ctx c).env =
      c.env ++ localeEnv sys ++ customEnvList ctx := by
  unfold CommandWithCustomEnvironment localeEnv customEnvList
  cases hE : GetCustomEnvironment ctx <;> by_cases hL : UseStandardLocale sys <;>
    simp [hE, hL]

lemma CommandContext_path_args (sys : SysState) (ctx : Ctx) (cmd : String) (args : List String) :
    (CommandContext sys ctx cmd args).path =
      (if WillUseNsenter sys ctx then nsenter else cmd) ∧
    (CommandContext sys ctx cmd args).args =
      (if WillUseNsenter sys ctx then
        ["-m", "-u", "-i", "-n", "-p", "-t", "1", cmd] ++ args
      else args) := by
  unfold CommandContext WillUseNsenter
  by_cases h : IsContainerized sys && !shouldForceNoNsenter ctx <;>
  by_cases hv : DefaultVolumeGroup ctx ≠ "" <;>
    simp [h, hv, CommandWithCustomEnvironment_path, CommandWithCustomEnvironment_args]

lemma CommandContext_env (sys : SysState) (ctx : Ctx) (cmd : String) (args : List String) :
    (CommandContext sys ctx cmd args).env =
      vgEnv ctx ++ localeEnv sys ++ customEnvList ctx := by
  unfold CommandContext vgEnv
  by_cases h : IsContainerized sys && !shouldForceNoNsenter ctx <;>
  by_cases hv : DefaultVolumeGroup ctx ≠ "" <;>
    simp [h, hv, CommandWithCustomEnvironment_env]

lemma envValue_append_right (a b : List String) (k v : String)
    (h : envValue k b = some v) : envValue k (a ++ b) = some v := by
  unfold envValue at h ⊢
  rw [List.reverse_append, List.find?_append]
  cases hb : (b.reverse.find? fun e => List.isPrefixOf (k ++ "=").data e.data) with
  | none => rw [hb] at h; simp at h
  | some e => rw [hb] at h; simpa [Option.or, hb, String.data_append] using h

lemma apply_sameKind_overwrite (a b : VGReduceOption) (h : a.sameKind b = true)
    (o : VGReduceOptions) :
    b.ApplyToVGReduceOptions (a.ApplyToVGReduceOptions o) = b.ApplyToVGReduceOptions o := by
  cases a <;> cases b <;>
    simp_all [VGReduceOption.sameKind, VGReduceOption.ApplyToVGReduceOptions]

/-!
## Claim theorems
-/

/-- C1: when the process is not containerized or the context's
force-no-nsenter flag is set, `CommandContext` returns a descriptor whose
path is `cmd` and whose argument vector is exactly `args`; when
containerized without the flag, the path is the nsenter helper and the
arguments are the fixed namespace flags, `cmd`, then `args`. -/
theorem c1_commandContext_nsenter_dispatch (sys : SysState) (ctx : Ctx)
    (cmd : String) (args : List String) :
    ((IsContainerized sys = false ∨ shouldForceNoNsenter ctx = true) →
      (CommandContext sys ctx cmd args).path = cmd ∧
      (CommandContext sys ctx cmd args).args = args) ∧
    (IsContainerized sys = true ∧ shouldForceNoNsenter ctx = false →
      (CommandContext sys ctx cmd args).path = nsenter ∧
      (CommandContext sys ctx cmd args).args =
        ["-m", "-u", "-i", "-n", "-p", "-t", "1", cmd] ++ args) := by
  obtain ⟨hp, ha⟩ := CommandContext_path_args sys ctx cmd args
  constructor
  · intro h
    have hw : WillUseNsenter sys ctx = false := by
      rcases h with h | h <;> simp [WillUseNsenter, h]
    rw [hp, ha, hw]
    simp
  · rintro ⟨h1, h2⟩
    have hw : WillUseNsenter sys ctx = true := by
      simp [WillUseNsenter, h1, h2]
    rw [hp, ha, hw]
    simp

/-- Witness for C1 at a concrete containerized input without bypass. -/
theorem c1_witness :
    (CommandContext ⟨true, false⟩ Ctx.background "toolX" ["list"]).path = nsenter ∧
    (CommandContext ⟨true, false⟩ Ctx.background "toolX" ["list"]).args =
      ["-m", "-u", "-i", "-n", "-p", "-t", "1", "toolX"] ++ ["list"] :=
  (c1_commandContext_nsenter_dispatch ⟨true, false⟩ Ctx.background "toolX" ["list"]).2
    ⟨rfl, rfl⟩

/-- C2 (failing evaluation): the four context keys of command.go are all the
equal empty-struct value, so the default-volume-group entry shadows the
wait-delay entry: after setting a wait delay of 5 and then a default
volume group, the wait-delay getter type-asserts the newest (string) entry,
fails, and returns the zero default instead of 5. -/
theorem c2_wait_delay_clobbered :
    GetProcessCancelWaitDelay
        (WithDefaultVolumeGroup (SetProcessCancelWaitDelay Ctx.background 5) "vg") =
      DefaultWaitDelay ∧ DefaultWaitDelay ≠ (5 : Int) :=
  ⟨rfl, by decide⟩

/-- C3: `WillUseNsenter` is containerized-and-not-bypassed, and forcing the
bypass on any context makes it false regardless of containerization. -/
theorem c3_willUseNsenter (sys : SysState) (ctx : Ctx) :
    WillUseNsenter sys ctx = (IsContainerized sys && !shouldForceNoNsenter ctx) ∧
    WillUseNsenter sys (WithForceNoNsenter ctx true) = false := by
  refine ⟨rfl, ?_⟩
  simp [WillUseNsenter, WithForceNoNsenter, shouldForceNoNsenter]

/-- C4: every method of the no-nsenter decorator returns exactly the wrapped
client's result at the context enriched by `WithForceNoNsenter ctx true`
with the same arguments, and decorators stack (shown on `vgCreate`). -/
theorem c4_noNsenter_decorator {Opt Err V : Type} (c : Client Opt Err V) (ctx : Ctx) :
    (WithNoNsenter c).version ctx = c.version (WithForceNoNsenter ctx true) ∧
    (WithNoNsenter c).rawConfig ctx = c.rawConfig (WithForceNoNsenter ctx true) ∧
    (WithNoNsenter c).readAndDecodeConfig ctx = c.readAndDecodeConfig (WithForceNoNsenter ctx true) ∧
    (WithNoNsenter c).writeAndEncodeConfig ctx = c.writeAndEncodeConfig (WithForceNoNsenter ctx true) ∧
    (WithNoNsenter c).updateGlobalConfig ctx = c.updateGlobalConfig (WithForceNoNsenter ctx true) ∧
    (WithNoNsenter c).updateLocalConfig ctx = c.updateLocalConfig (WithForceNoNsenter ctx true) ∧
    (WithNoNsenter c).updateProfileConfig ctx = c.updateProfileConfig (WithForceNoNsenter ctx true) ∧
    (WithNoNsenter c).createProfile ctx = c.createProfile (WithForceNoNsenter ctx true) ∧
    (WithNoNsenter c).removeProfile ctx = c.removeProfile (WithForceNoNsenter ctx true) ∧
    (WithNoNsenter c).getProfilePath ctx = c.getProfilePath (WithForceNoNsenter ctx true) ∧
    (WithNoNsenter c).getProfileDirectory ctx = c.getProfileDirectory (WithForceNoNsenter ctx true) ∧
    (WithNoNsenter c).vg ctx = c.vg (WithForceNoNsenter ctx true) ∧
    (WithNoNsenter c).vgs ctx = c.vgs (WithForceNoNsenter ctx true) ∧
    (WithNoNsenter c).vgCreate ctx = c.vgCreate (WithForceNoNsenter ctx true) ∧
    (WithNoNsenter c).vgRemove ctx = c.vgRemove (WithForceNoNsenter ctx true) ∧
    (WithNoNsenter c).vgExtend ctx = c.vgExtend (WithForceNoNsenter ctx true) ∧
    (WithNoNsenter c).vgReduce ctx = c.vgReduce (WithForceNoNsenter ctx true) ∧
    (WithNoNsenter c).vgRename ctx = c.vgRename (WithForceNoNsenter ctx true) ∧
    (WithNoNsenter c).vgChange ctx = c.vgChange (WithForceNoNsenter ctx true) ∧
    (WithNoNsenter c).lv ctx = c.lv (WithForceNoNsenter ctx true) ∧
    (WithNoNsenter c).lvs ctx = c.lvs (WithForceNoNsenter ctx true) ∧
    (WithNoNsenter c).lvCreate ctx = c.lvCreate (WithForceNoNsenter ctx true) ∧
    (WithNoNsenter c).lvRemove ctx = c.lvRemove (WithForceNoNsenter ctx true) ∧
    (WithNoNsenter c).lvResize ctx = c.lvResize (WithForceNoNsenter ctx true) ∧
    (WithNoNsenter c).lvExtend ctx = c.lvExtend (WithForceNoNsenter ctx true) ∧
    (WithNoNsenter c).lvReduce ctx = c.lvReduce (WithForceNoNsenter ctx true) ∧
    (WithNoNsenter c).lvRename ctx = c.lvRename (WithForceNoNsenter ctx true) ∧
    (WithNoNsenter c).lvChange ctx = c.lvChange (WithForceNoNsenter ctx true) ∧
    (WithNoNsenter c).pvs ctx = c.pvs (WithForceNoNsenter ctx true) ∧
    (WithNoNsenter c).pvCreate ctx = c.pvCreate (WithForceNoNsenter ctx true) ∧
    (WithNoNsenter c).pvRemove ctx = c.pvRemove (WithForceNoNsenter ctx true) ∧
    (WithNoNsenter c).pvResize ctx = c.pvResize (WithForceNoNsenter ctx true) ∧
    (WithNoNsenter c).pvChange ctx = c.pvChange (WithForceNoNsenter ctx true) ∧
    (WithNoNsenter c).pvMove ctx = c.pvMove (WithForceNoNsenter ctx true) ∧
    (WithNoNsenter c).devList ctx = c.devList (WithForceNoNsenter ctx true) ∧
    (WithNoNsenter c).devCheck ctx = c.devCheck (WithForceNoNsenter ctx true) ∧
    (WithNoNsenter c).devUpdate ctx = c.devUpdate (WithForceNoNsenter ctx true) ∧
    (WithNoNsenter c).devModify ctx = c.devModify (WithForceNoNsenter ctx true) ∧
    (WithNoNsenter (WithNoNsenter c)).vgCreate ctx =
      c.vgCreate (WithForceNoNsenter (WithForceNoNsenter ctx true) true) :=
  ⟨rfl, rfl, rfl, rfl, rfl, rfl, rfl, rfl, rfl, rfl, rfl, rfl, rfl, rfl, rfl, rfl,
   rfl, rfl, rfl, rfl, rfl, rfl, rfl, rfl, rfl, rfl, rfl, rfl, rfl, rfl, rfl, rfl,
   rfl, rfl, rfl, rfl, rfl, rfl, rfl⟩

/-- C5 counterexample: with a custom environment of one entry and no other
configuration, the descriptor's environment is exactly that entry, so the
subprocess does not receive the parent's environment (here containing a
PATH entry), contradicting the claim that the inherited environment is
preserved. -/
theorem c5_counterexample :
    effectiveEnv ["PATH=/usr/bin"]
        (CommandContext ⟨false, false⟩
          (WithCustomEnvironment Ctx.background [("FOO", "bar")]) "lvs" []) =
      ["FOO=bar"] ∧
    "PATH=/usr/bin" ∉
      effectiveEnv ["PATH=/usr/bin"]
        (CommandContext ⟨false, false⟩
          (WithCustomEnvironment Ctx.background [("FOO", "bar")]) "lvs" []) := by
  decide

/-- C5 (amended): the descriptor's environment is exactly the automatic
entries (default-volume-group variable, then the locale entry) followed by
the custom entries; whenever any entry was appended the subprocess
receives only those entries, not the parent environment; and a key bound
in the custom portion resolves to the custom value (last entry wins). -/
theorem c5_env_construction (sys : SysState) (ctx : Ctx) (cmd : String)
    (args : List String) (parent : List String) :
    (CommandContext sys ctx cmd args).env =
      vgEnv ctx ++ localeEnv sys ++ customEnvList ctx ∧
    ((CommandContext sys ctx cmd args).env ≠ [] →
      effectiveEnv parent (CommandContext sys ctx cmd args) =
        vgEnv ctx ++ localeEnv sys ++ customEnvList ctx) ∧
    (∀ k v, envValue k (customEnvList ctx) = some v →
      envValue k (CommandContext sys ctx cmd args).env = some v) := by
  have he := CommandContext_env sys ctx cmd args
  refine ⟨he, ?_, ?_⟩
  · intro hne
    rw [effectiveEnv, if_neg hne, he]
  · intro k v hv
    rw [he]
    rw [List.append_assoc]
    exact envValue_append_right _ _ _ _ (envValue_append_right _ _ _ _ hv)

/-- Witness for C5 (amended) at a concrete input with a default volume
group, locale normalization, and a colliding custom entry. -/
theorem c5_witness :
    (CommandContext ⟨false, true⟩
        (WithCustomEnvironment (WithDefaultVolumeGroup Ctx.background "vg0")
          [("LVM_VG_NAME", "vg1")]) "lvs" []).env =
      vgEnv (WithCustomEnvironment (WithDefaultVolumeGroup Ctx.background "vg0")
          [("LVM_VG_NAME", "vg1")]) ++
        localeEnv ⟨false, true⟩ ++
        customEnvList (WithCustomEnvironment (WithDefaultVolumeGroup Ctx.background "vg0")
          [("LVM_VG_NAME", "vg1")]) ∧
    envValue "LVM_VG_NAME"
        (CommandContext ⟨false, true⟩
          (WithCustomEnvironment (WithDefaultVolumeGroup Ctx.background "vg0")
            [("LVM_VG_NAME", "vg1")]) "lvs" []).env = some "vg1" :=
  ⟨(c5_env_construction ⟨false, true⟩
      (WithCustomEnvironment (WithDefaultVolumeGroup Ctx.background "vg0")
        [("LVM_VG_NAME", "vg1")]) "lvs" [] []).1,
   (c5_env_construction ⟨false, true⟩
      (WithCustomEnvironment (WithDefaultVolumeGroup Ctx.background "vg0")
        [("LVM_VG_NAME", "vg1")]) "lvs" [] []).2.2 "LVM_VG_NAME" "vg1" (by decide)⟩

/-- C6: `AsArgs` returns a descriptive error (and no argument list) whenever
the aggregated volume-group name is empty, or the physical-volume list is
empty and remove-missing is unset; otherwise it returns the fields
rendered in the fixed order remove-missing, volume-group name,
physical-volume names, force, common options. -/
theorem c6_vgreduce_validation (list : List VGReduceOption) :
    (((VGReduceAggregate list).volumeGroupName = "" ∨
        ((VGReduceAggregate list).physicalVolumeNames = [] ∧
          (VGReduceAggregate list).removeMissing = false)) →
      ∃ e, VGReduceOptionsList.AsArgs list = Except.error e) ∧
    ((VGReduceAggregate list).volumeGroupName ≠ "" →
      ((VGReduceAggregate list).physicalVolumeNames ≠ [] ∨
        (VGReduceAggregate list).removeMissing = true) →
      VGReduceOptionsList.AsArgs list = Except.ok
        (CommonOptions.ApplyToArgs (VGReduceAggregate list).commonOptions
          (Force.ApplyToArgs (VGReduceAggregate list).force
            (PhysicalVolumeNames.ApplyToArgs (VGReduceAggregate list).physicalVolumeNames
              (VolumeGroupName.ApplyToArgs (VGReduceAggregate list).volumeGroupName
                (RemoveMissing.ApplyToArgs (VGReduceAggregate list).removeMissing
                  NewArgs)))))) := by
  constructor
  · intro h
    unfold VGReduceOptionsList.AsArgs VGReduceOptions.ApplyToArgs
    rcases h with h | ⟨h1, h2⟩
    · rw [if_pos h]
      exact ⟨_, rfl⟩
    · by_cases hv : (VGReduceAggregate list).volumeGroupName = ""
      · rw [if_pos hv]
        exact ⟨_, rfl⟩
      · rw [if_neg hv, if_pos ⟨h1, h2⟩]
        exact ⟨_, rfl⟩
  · intro h1 h2
    unfold VGReduceOptionsList.AsArgs VGReduceOptions.ApplyToArgs
    have hnot : ¬((VGReduceAggregate list).physicalVolumeNames = [] ∧
        (VGReduceAggregate list).removeMissing = false) := by
      rintro ⟨a, b⟩
      rcases h2 with h | h
      · exact h a
      · rw [h] at b
        cases b
    rw [if_neg h1, if_neg hnot]

/-- Witness for C6: the empty option list fails validation with an error,
and a list with a volume-group name and one physical volume renders. -/
theorem c6_witness :
    (∃ e, VGReduceOptionsList.AsArgs [] = Except.error e) ∧
    VGReduceOptionsList.AsArgs
        [VGReduceOption.vgName "vg1", VGReduceOption.pvNames ["/dev/sda"]] =
      Except.ok
        (CommonOptions.ApplyToArgs
          (VGReduceAggregate
            [VGReduceOption.vgName "vg1", VGReduceOption.pvNames ["/dev/sda"]]).commonOptions
          (Force.ApplyToArgs
            (VGReduceAggregate
              [VGReduceOption.vgName "vg1", VGReduceOption.pvNames ["/dev/sda"]]).force
            (PhysicalVolumeNames.ApplyToArgs
              (VGReduceAggregate
                [VGReduceOption.vgName "vg1", VGReduceOption.pvNames ["/dev/sda"]]).physicalVolumeNames
              (VolumeGroupName.ApplyToArgs
                (VGReduceAggregate
                  [VGReduceOption.vgName "vg1", VGReduceOption.pvNames ["/dev/sda"]]).volumeGroupName
                (RemoveMissing.ApplyToArgs
                  (VGReduceAggregate
                    [VGReduceOption.vgName "vg1", VGReduceOption.pvNames ["/dev/sda"]]).removeMissing
                  NewArgs))))) :=
  ⟨(c6_vgreduce_validation []).1 (Or.inl rfl),
   (c6_vgreduce_validation
      [VGReduceOption.vgName "vg1", VGReduceOption.pvNames ["/dev/sda"]]).2
    (by decide) (Or.inl (by decide))⟩

/-- C7: option-list aggregation is last-wins: with two same-kind options A
then B at the end of a list, the aggregated struct and the rendered
argument list are those obtained from B alone. -/
theorem c7_last_wins (l : List VGReduceOption) (a b : VGReduceOption)
    (h : a.sameKind b = true) :
    VGReduceAggregate (l ++ [a, b]) = VGReduceAggregate (l ++ [b]) ∧
    VGReduceOptionsList.AsArgs (l ++ [a, b]) = VGReduceOptionsList.AsArgs (l ++ [b]) := by
  have hagg : VGReduceAggregate (l ++ [a, b]) = VGReduceAggregate (l ++ [b]) := by
    unfold VGReduceAggregate
    rw [List.foldl_append, List.foldl_append]
    simp [apply_sameKind_overwrite a b h]
  refine ⟨hagg, ?_⟩
  unfold VGReduceOptionsList.AsArgs
  rw [hagg]

/-- Witness for C7 with two volume-group-name options. -/
theorem c7_witness :
    VGReduceAggregate [VGReduceOption.vgName "a", VGReduceOption.vgName "b"] =
      VGReduceAggregate [VGReduceOption.vgName "b"] ∧
    VGReduceOptionsList.AsArgs [VGReduceOption.vgName "a", VGReduceOption.vgName "b"] =
      VGReduceOptionsList.AsArgs [VGReduceOption.vgName "b"] :=
  c7_last_wins [] (VGReduceOption.vgName "a") (VGReduceOption.vgName "b") rfl

/-- C9: a false (zero-value) `RequestConfirm` adds the `--yes` flag, a true
one adds nothing, and every `CommonOptions` whose `RequestConfirm` is
false renders an argument list containing `--yes`. -/
theorem c9_request_confirm (args : Arguments) (c : CommonOptions) :
    RequestConfirm.ApplyToArgs false args = args.AddOrReplace "--yes" ∧
    "--yes" ∈ RequestConfirm.ApplyToArgs false args ∧
    RequestConfirm.ApplyToArgs true args = args ∧
    (c.requestConfirm = false → "--yes" ∈ CommonOptions.ApplyToArgs c args) := by
  refine ⟨rfl, ?_, rfl, ?_⟩
  · simp [RequestConfirm.ApplyToArgs, Arguments.AddOrReplace]
  · intro h
    unfold CommonOptions.ApplyToArgs
    rw [h]
    simp [RequestConfirm.ApplyToArgs, Arguments.AddOrReplace]

/-- Witness for C9 on the zero-value common options. -/
theorem c9_witness : "--yes" ∈ CommonOptions.ApplyToArgs ⟨[], "", "", false, false⟩ [] :=
  (c9_request_confirm [] ⟨[], "", "", false, false⟩).2.2.2 rfl

/-- C10: the rendered output of `CommonOptions.ApplyToArgs` does not depend
on the `Profile` field, and with all rendered fields inert a set profile
leaves the argument list unchanged — the profile is silently absent. -/
theorem c10_profile_never_rendered (c : CommonOptions) (p q : Profile) (args : Arguments) :
    CommonOptions.ApplyToArgs { c with profile := p } args =
      CommonOptions.ApplyToArgs { c with profile := q } args ∧
    CommonOptions.ApplyToArgs ⟨[], "", p, false, true⟩ args = args := by
  constructor
  · rfl
  · simp [CommonOptions.ApplyToArgs, Devices.ApplyToArgs, DevicesFile.ApplyToArgs,
      Verbose.ApplyToArgs, RequestConfirm.ApplyToArgs]

end Lvm2go
